import Mathlib

/-!
Verification of the MCP skill executor (src/executor.py): a shallow embedding of
the MCPExecutor facade (lazy connect, list_tools, describe_tool, call_tool,
close) and of the command-line dispatch in main, with theorems settling the
specification's claims about them.
-/

/-- A tool entry as carried by a list_tools wire response.  The executor reads
exactly three fields from each entry: name, description and inputSchema
(src/executor.py lines 56-76).  The schema is an opaque structured value,
represented by the type parameter σ. -/
structure Tool (σ : Type) where
  name : String
  description : String
  inputSchema : σ
deriving DecidableEq

/-- The description-only dictionary built for each tool by MCPExecutor.list_tools
(src/executor.py lines 56-62): it carries only name and description; there is no
inputSchema field in this record, mirroring the source dict literal. -/
structure ToolDesc where
  name : String
  description : String
deriving DecidableEq

/-- The full dictionary built by MCPExecutor.describe_tool on a name match
(src/executor.py lines 72-76): name, description and inputSchema. -/
structure ToolDetail (σ : Type) where
  name : String
  description : String
  inputSchema : σ
deriving DecidableEq

/-- src/executor.py lines 56-62: the list comprehension of MCPExecutor.list_tools,
mapping every tool of the response to its description-only dictionary. -/
def listToolsResult {σ : Type} (tools : List (Tool σ)) : List ToolDesc :=
  tools.map (fun t => { name := t.name, description := t.description })

/-- src/executor.py lines 69-77: the for loop of MCPExecutor.describe_tool.
A linear scan over the listing; the first tool whose name equals tool_name
(Python string ==, exact and case-sensitive) yields the full dictionary and the
loop returns; if the loop falls through, the method returns None.  The function
is total: a missing tool is the value none, never an error. -/
def describeToolResult {σ : Type} (tools : List (Tool σ)) (tool_name : String) :
    Option (ToolDetail σ) :=
  match tools with
  | [] => none
  | t :: rest =>
    if t.name = tool_name then
      some { name := t.name, description := t.description, inputSchema := t.inputSchema }
    else
      describeToolResult rest tool_name

/-- Claim C5: describe_tool performs a linear scan under exact case-sensitive
string equality over the full listing: it returns the first matching tool's full
descriptor (name, description, inputSchema) when a match exists, and the
explicit not-found value none (never an error - the function is total into
Option) when no tool has the queried name.  Stated as: the scan equals
List.find? on exact name equality, mapped to the full descriptor. -/
theorem C5_describe_scan {σ : Type} (tools : List (Tool σ)) (tool_name : String) :
    describeToolResult tools tool_name =
      (tools.find? (fun t => t.name == tool_name)).map
        (fun t => { name := t.name, description := t.description,
                    inputSchema := t.inputSchema }) := by
  induction tools with
  | nil => rfl
  | cons t rest ih =>
    by_cases h : t.name = tool_name
    · rw [describeToolResult, if_pos h, List.find?_cons_of_pos _ (by simp [h])]
      rfl
    · rw [describeToolResult, if_neg h, List.find?_cons_of_neg _ (by simp [h])]
      exact ih

/-- Claim C7: list_tools maps every tool entry of the response to a descriptor,
preserving order exactly - the output at every index i is precisely the
name/description projection of the input at index i, and the lengths agree (so
nothing is dropped, duplicated or re-sorted).  The returned ToolDesc record has
no inputSchema field, mirroring the source's description-only dict. -/
theorem C7_list_tools_map {σ : Type} (tools : List (Tool σ)) :
    (listToolsResult tools).length = tools.length ∧
    ∀ i : Nat, (listToolsResult tools)[i]? =
      (tools[i]?).map (fun t => ({ name := t.name, description := t.description } : ToolDesc)) := by
  refine ⟨by simp [listToolsResult], fun i => ?_⟩
  simp [listToolsResult]

/-- Claim C10: when the listing holds several tools of the same name, the scan
of describe_tool stops at the first match in response order: if no tool of the
prefix l1 has the queried name and t does, the result over l1 ++ t :: l2 is
t's descriptor, whatever l2 holds (duplicates included). -/
theorem C10_first_match {σ : Type} (l1 l2 : List (Tool σ)) (t : Tool σ) (nm : String)
    (h1 : ∀ u ∈ l1, u.name ≠ nm) (h2 : t.name = nm) :
    describeToolResult (l1 ++ t :: l2) nm =
      some { name := t.name, description := t.description, inputSchema := t.inputSchema } := by
  induction l1 with
  | nil => simp [describeToolResult, h2]
  | cons u rest ih =>
    have hu : u.name ≠ nm := h1 u (by simp)
    rw [List.cons_append, describeToolResult, if_neg hu]
    exact ih (fun v hv => h1 v (by simp [hv]))

/-- Witness for C10: a listing with two tools named b; describe returns the
first one's descriptor (description "first", not "second"). -/
theorem C10_witness :
    describeToolResult
      ([(⟨"a", "desc-a", ()⟩ : Tool Unit)] ++ ⟨"b", "first", ()⟩ :: [⟨"b", "second", ()⟩]) "b" =
      some { name := "b", description := "first", inputSchema := () } :=
  C10_first_match [⟨"a", "desc-a", ()⟩] [⟨"b", "second", ()⟩] ⟨"b", "first", ()⟩ "b"
    (by decide) rfl

/-- One ClientSession object held by the facade.  sid is the object's identity
(fresh per connect), isOpen records whether its teardown (__aexit__) has been
run.  In Python any session object - open or torn down - is truthy. -/
structure SessionObj where
  sid : Nat
  isOpen : Bool
deriving DecidableEq

/-- The mutable attributes of an MCPExecutor that the lifecycle claims are
about: self.session (None until the first connect; note that close never
resets it to None), plus two ghost fields - the number of handshakes
(connects) performed so far and a counter producing fresh session ids. -/
structure ExecutorState where
  session : Option SessionObj
  handshakes : Nat
  nextSid : Nat
deriving DecidableEq

namespace MCPExecutor

/-- src/executor.py lines 35-48: connect spawns the stdio transport, builds a
fresh ClientSession, assigns it to self.session, and performs the initialize
handshake.  There is no guard in connect itself: it always spawns and
handshakes, replacing any existing session. -/
def connect (s : ExecutorState) : ExecutorState :=
  { session := some { sid := s.nextSid, isOpen := true },
    handshakes := s.handshakes + 1,
    nextSid := s.nextSid + 1 }

/-- src/executor.py lines 50-55: state effect of list_tools.  The guard is
Python truthiness of self.session: connect runs only when self.session is
None.  The second component is the session the list_tools request is then
issued on. -/
def list_toolsStep (s : ExecutorState) : ExecutorState × Option SessionObj :=
  let s2 := if s.session.isNone then connect s else s
  (s2, s2.session)

/-- src/executor.py lines 64-69: state effect of describe_tool - identical
lazy-connect guard, then a list_tools request on the current session. -/
def describe_toolStep (s : ExecutorState) : ExecutorState × Option SessionObj :=
  let s2 := if s.session.isNone then connect s else s
  (s2, s2.session)

/-- src/executor.py lines 79-84: state effect of call_tool - identical
lazy-connect guard, then a call_tool request on the current session. -/
def call_toolStep (s : ExecutorState) : ExecutorState × Option SessionObj :=
  let s2 := if s.session.isNone then connect s else s
  (s2, s2.session)

/-- src/executor.py lines 87-93: close.  When self.session is None nothing
happens; otherwise the session's __aexit__ is awaited inside a bare
try/except: pass, so whatever the teardown does (the argument models its
outcome) the method returns normally.  self.session is NOT reset to None:
the torn-down object stays assigned. -/
def close (teardown : Except String Unit) (s : ExecutorState) :
    Except String ExecutorState :=
  match s.session with
  | none => Except.ok s
  | some sess =>
    match teardown with
    | Except.ok _ => Except.ok { s with session := some { sess with isOpen := false } }
    | Except.error _ => Except.ok { s with session := some { sess with isOpen := false } }

/-- The state after close (close never fails, so the error arm is dead). -/
def closeState (teardown : Except String Unit) (s : ExecutorState) : ExecutorState :=
  match close teardown s with
  | Except.ok s2 => s2
  | Except.error _ => s

end MCPExecutor

/-- The three public operations of the facade, as their state effects. -/
def facadeOps : List (ExecutorState → ExecutorState × Option SessionObj) :=
  [MCPExecutor.list_toolsStep, MCPExecutor.describe_toolStep, MCPExecutor.call_toolStep]

/-- Claim C1: starting from an unconnected facade (self.session is None), any
one of list/describe/call performs exactly one handshake, leaves the facade
with a fresh open (Ready) session, and any second operation on that facade
performs zero additional handshakes. -/
theorem C1_lazy_connect (f g : ExecutorState → ExecutorState × Option SessionObj)
    (hf : f ∈ facadeOps) (hg : g ∈ facadeOps)
    (s : ExecutorState) (h : s.session = none) :
    (f s).1.handshakes = s.handshakes + 1 ∧
    (f s).1.session = some { sid := s.nextSid, isOpen := true } ∧
    (g (f s).1).1.handshakes = (f s).1.handshakes := by
  simp only [facadeOps, List.mem_cons, List.not_mem_nil, or_false] at hf hg
  rcases hf with rfl | rfl | rfl <;> rcases hg with rfl | rfl | rfl <;>
    simp [MCPExecutor.list_toolsStep, MCPExecutor.describe_toolStep,
      MCPExecutor.call_toolStep, MCPExecutor.connect, h]

/-- Witness for C1: from the unconnected initial state, list_tools performs the
single handshake and a following describe_tool performs no further one. -/
theorem C1_witness :
    (MCPExecutor.list_toolsStep ⟨none, 0, 0⟩).1.handshakes = 0 + 1 ∧
    (MCPExecutor.list_toolsStep ⟨none, 0, 0⟩).1.session = some { sid := 0, isOpen := true } ∧
    (MCPExecutor.describe_toolStep (MCPExecutor.list_toolsStep ⟨none, 0, 0⟩).1).1.handshakes =
      (MCPExecutor.list_toolsStep ⟨none, 0, 0⟩).1.handshakes :=
  C1_lazy_connect MCPExecutor.list_toolsStep MCPExecutor.describe_toolStep
    (by simp [facadeOps]) (by simp [facadeOps]) ⟨none, 0, 0⟩ rfl

/-- Claim C3 evaluated at its failing input: connect a facade through
list_tools (one handshake), call close, then call list_tools again.  Because
close leaves self.session assigned, the truthiness guard sees a session and
skips connect: the handshake count stays at 1 (no new handshake is attempted)
and the request is issued on the torn-down session (isOpen = false), exactly
what the claim and spec say must not happen. -/
theorem C3_closed_session_reused :
    (MCPExecutor.list_toolsStep
        (MCPExecutor.closeState (Except.ok ())
          (MCPExecutor.list_toolsStep ⟨none, 0, 0⟩).1)).1.handshakes =
      (MCPExecutor.list_toolsStep ⟨none, 0, 0⟩).1.handshakes ∧
    (MCPExecutor.list_toolsStep
        (MCPExecutor.closeState (Except.ok ())
          (MCPExecutor.list_toolsStep ⟨none, 0, 0⟩).1)).2 = some ⟨0, false⟩ := by
  constructor <;> rfl

/-- Counterexample for C4: on a facade whose session exists and is Ready
(open), connect is not a no-op - it performs another handshake and replaces
the session with a fresh one (different sid), so the original Ready session is
abandoned without teardown. -/
theorem C4_connect_not_idempotent :
    (MCPExecutor.connect ⟨some ⟨0, true⟩, 1, 1⟩).handshakes = 1 + 1 ∧
    (MCPExecutor.connect ⟨some ⟨0, true⟩, 1, 1⟩).session = some ⟨1, true⟩ ∧
    some (SessionObj.mk 1 true) ≠ some (SessionObj.mk 0 true) := by
  refine ⟨rfl, rfl, by decide⟩

/-- Claim C4 as amended: connect itself is unguarded - it always performs a
new handshake - while the idempotence the spec describes lives one layer up:
each of list/describe/call skips connect whenever a session object exists, so
on such a facade the operations leave the state unchanged and issue the
request on the existing session. -/
theorem C4_amended (s : ExecutorState) (sess : SessionObj) (h : s.session = some sess) :
    (MCPExecutor.connect s).handshakes = s.handshakes + 1 ∧
    MCPExecutor.list_toolsStep s = (s, s.session) ∧
    MCPExecutor.describe_toolStep s = (s, s.session) ∧
    MCPExecutor.call_toolStep s = (s, s.session) := by
  simp [MCPExecutor.connect, MCPExecutor.list_toolsStep,
    MCPExecutor.describe_toolStep, MCPExecutor.call_toolStep, h]

/-- Witness for the amended C4: on a facade holding a Ready session, the three
operations are state no-ops while connect still adds a handshake. -/
theorem C4_amended_witness :
    (MCPExecutor.connect ⟨some ⟨0, true⟩, 1, 1⟩).handshakes = 1 + 1 ∧
    MCPExecutor.list_toolsStep ⟨some ⟨0, true⟩, 1, 1⟩ =
      (⟨some ⟨0, true⟩, 1, 1⟩, some ⟨0, true⟩) ∧
    MCPExecutor.describe_toolStep ⟨some ⟨0, true⟩, 1, 1⟩ =
      (⟨some ⟨0, true⟩, 1, 1⟩, some ⟨0, true⟩) ∧
    MCPExecutor.call_toolStep ⟨some ⟨0, true⟩, 1, 1⟩ =
      (⟨some ⟨0, true⟩, 1, 1⟩, some ⟨0, true⟩) :=
  C4_amended ⟨some ⟨0, true⟩, 1, 1⟩ ⟨0, true⟩ rfl

/-- Claim C6: close never raises.  For every facade state - never connected
(session None) or holding a session, open or already torn down - and for every
outcome of the underlying teardown (including an error), close returns
normally: the result is always Except.ok. -/
theorem C6_close_never_raises (teardown : Except String Unit) (s : ExecutorState) :
    ∃ s2, MCPExecutor.close teardown s = Except.ok s2 := by
  unfold MCPExecutor.close
  cases s.session with
  | none => exact ⟨s, rfl⟩
  | some sess =>
    cases teardown with
    | ok u => exact ⟨_, rfl⟩
    | error e => exact ⟨_, rfl⟩

/-- A content item of a tool-call result: textual or opaque structured, per the
spec's tagged decomposition of the wire response's content list. -/
inductive ContentItem (σ : Type) where
  | text (s : String)
  | structured (v : σ)
deriving DecidableEq

/-- The two error species of a tool invocation, per the spec's taxonomy:
protocolError for a malformed or unframeable response, toolInvocationError for
a protocol-level success carrying a tool-level failure. -/
inductive MCPError where
  | protocolError (detail : String)
  | toolInvocationError (message : String)
deriving DecidableEq

/-- The shapes a call_tool wire response can take: a protocol-level success
with content, a protocol-level success in which the tool itself reports
failure, or a malformed/unframeable frame. -/
inductive WireCallResponse (σ : Type) where
  | success (content : List (ContentItem σ))
  | toolFailure (message : String)
  | malformed (detail : String)
deriving DecidableEq

/-- Modelled from the spec: ClientSession.call_tool of the external mcp
package (the Session Protocol Engine) is not part of src/; per spec sections
4.2 and 7 it surfaces a tool-reported failure as ToolInvocationError and a
malformed or unframeable response as ProtocolError, distinct error species. -/
def sessionCallTool {σ : Type} :
    WireCallResponse σ → Except MCPError (List (ContentItem σ))
  | WireCallResponse.success c => Except.ok c
  | WireCallResponse.toolFailure m => Except.error (MCPError.toolInvocationError m)
  | WireCallResponse.malformed d => Except.error (MCPError.protocolError d)

/-- A programmatic discriminator between the two error species. -/
def MCPError.isToolInvocation : MCPError → Bool
  | MCPError.toolInvocationError _ => true
  | MCPError.protocolError _ => false

namespace MCPExecutor

/-- src/executor.py lines 84-85: call_tool awaits the engine's call and
returns response.content; there is no try/except around it, so the engine's
outcome, success or either error, is propagated to the caller unchanged. -/
def call_toolResult {σ : Type} (resp : WireCallResponse σ) :
    Except MCPError (List (ContentItem σ)) :=
  sessionCallTool resp

end MCPExecutor

/-- Claim C2: through call_tool, a tool-reported failure in a protocol-level
success surfaces as ToolInvocationError and a malformed response surfaces as
ProtocolError; the two are programmatically distinguishable (the discriminator
separates them, and the error values are never equal), while a clean success
yields the content. -/
theorem C2_error_distinction (σ : Type) (m d : String) (c : List (ContentItem σ)) :
    MCPExecutor.call_toolResult (WireCallResponse.toolFailure m : WireCallResponse σ) =
      Except.error (MCPError.toolInvocationError m) ∧
    MCPExecutor.call_toolResult (WireCallResponse.malformed d : WireCallResponse σ) =
      Except.error (MCPError.protocolError d) ∧
    MCPExecutor.call_toolResult (WireCallResponse.success c) = Except.ok c ∧
    (MCPError.toolInvocationError m).isToolInvocation = true ∧
    (MCPError.protocolError d).isToolInvocation = false ∧
    MCPError.toolInvocationError m ≠ MCPError.protocolError d := by
  refine ⟨rfl, rfl, rfl, rfl, rfl, fun hEq => ?_⟩
  cases hEq

/-- The launch configuration dictionary as read by connect: command is always
present; args and env are read with dict.get, so each is either present or
absent (env may also be explicitly null - dict.get conflates the two, which
Option likewise does here). -/
structure ServerConfig where
  command : String
  args : Option (List String)
  env : Option (List (String × String))
deriving DecidableEq

/-- The parameters handed to the stdio transport: command, an args list, and
an optional env where none means "inherit the caller's environment" (the mcp
transport semantics for env=None). -/
structure StdioServerParams where
  command : String
  args : List String
  env : Option (List (String × String))
deriving DecidableEq

namespace MCPExecutor

/-- src/executor.py lines 37-41: the StdioServerParameters built by connect.
command is passed through; args uses dict.get with default [] (absent means
empty list); env uses plain dict.get (absent or null means None, i.e.
inherit - no empty mapping is substituted). -/
def serverParams (c : ServerConfig) : StdioServerParams :=
  { command := c.command, args := c.args.getD [], env := c.env }

end MCPExecutor

/-- Claim C8: connect passes the launch configuration through to the transport
verbatim - the command always, the args list whenever present - and an absent
or null env is conveyed to the transport as none (inherit), never silently
replaced by an explicit empty environment mapping. -/
theorem C8_params_passthrough (c : ServerConfig) :
    (MCPExecutor.serverParams c).command = c.command ∧
    (MCPExecutor.serverParams c).env = c.env ∧
    (∀ a, c.args = some a → (MCPExecutor.serverParams c).args = a) ∧
    (c.env = none → (MCPExecutor.serverParams c).env ≠ some []) := by
  refine ⟨rfl, rfl, fun a ha => ?_, fun h => ?_⟩
  · simp [MCPExecutor.serverParams, ha]
  · simp [MCPExecutor.serverParams, h]

/-- Witness for C8: a concrete configuration with explicit args and an absent
env - the args arrive verbatim and env is not an empty mapping. -/
theorem C8_witness :
    (MCPExecutor.serverParams ⟨"server-cmd", some ["--flag"], none⟩).args = ["--flag"] ∧
    (MCPExecutor.serverParams ⟨"server-cmd", some ["--flag"], none⟩).env ≠ some [] :=
  ⟨(C8_params_passthrough ⟨"server-cmd", some ["--flag"], none⟩).2.2.1 ["--flag"] rfl,
   (C8_params_passthrough ⟨"server-cmd", some ["--flag"], none⟩).2.2.2 rfl⟩

/-- The parsed command line of main (src/executor.py lines 97-102): a boolean
list flag (store_true) and optional string values for describe and call. -/
structure CliArgs where
  list : Bool
  describe : Option String
  call : Option String
deriving DecidableEq

/-- Python truthiness of an optional string, as used by the elif chain of main:
None and the empty string are falsy, every other string is truthy. -/
def optTruthy : Option String → Bool
  | none => false
  | some s => !(s.isEmpty)

/-- The environment main runs in: whether the configuration file exists and
parses, whether the mcp package imported, the server's tool listing, and for
each operation an optional uncaught exception message raised while performing
it (covering connect, the wire round trip, and for call also the parsing of
the call JSON). -/
structure MainEnv (σ : Type) where
  configExists : Bool
  configParses : Bool
  hasMcp : Bool
  tools : List (Tool σ)
  listErr : Option String
  describeErr : Option String
  callErr : Option String
deriving DecidableEq

/-- What a run of main observably produces: the process exit code and the
messages written to the diagnostic stream by main itself (or by the
interpreter for an exception escaping main). -/
structure MainResult where
  exitCode : Nat
  stderrMsgs : List String
deriving DecidableEq

/-- src/executor.py lines 96-158: the dispatch of main after argument parsing.
In source order: missing config file exits 1 with a message (line 106-108);
json.load of a present but unparsable config raises out of main - the
interpreter prints the traceback and the process exits 1 (line 110-111);
missing mcp exits 1 with two messages (line 113-116); then the elif chain on
the truthiness of args.list / args.describe / args.call runs the selected
operation inside try/except - an exception exits 1 after printing the error
and a traceback (lines 152-156), a describe whose scan finds nothing prints
"Tool not found" and exits 1 (lines 129-131) - and when no selector is truthy
the help is printed and the process exits 0 (lines 149-150). -/
def mainRun {σ : Type} (env : MainEnv σ) (args : CliArgs) : MainResult :=
  if env.configExists = false then
    { exitCode := 1, stderrMsgs := ["Error: Configuration file not found: mcp-config.json"] }
  else if env.configParses = false then
    { exitCode := 1, stderrMsgs := ["Traceback: json.decoder.JSONDecodeError"] }
  else if env.hasMcp = false then
    { exitCode := 1, stderrMsgs := ["Error: mcp package not installed", "Install with: pip install mcp"] }
  else if args.list then
    match env.listErr with
    | some m => { exitCode := 1, stderrMsgs := ["Error: " ++ m, "Traceback (most recent call last):"] }
    | none => { exitCode := 0, stderrMsgs := [] }
  else if optTruthy args.describe then
    match env.describeErr with
    | some m => { exitCode := 1, stderrMsgs := ["Error: " ++ m, "Traceback (most recent call last):"] }
    | none =>
      match describeToolResult env.tools (args.describe.getD "") with
      | some _ => { exitCode := 0, stderrMsgs := [] }
      | none => { exitCode := 1, stderrMsgs := ["Tool not found: " ++ args.describe.getD ""] }
  else if optTruthy args.call then
    match env.callErr with
    | some m => { exitCode := 1, stderrMsgs := ["Error: " ++ m, "Traceback (most recent call last):"] }
    | none => { exitCode := 0, stderrMsgs := [] }
  else
    { exitCode := 0, stderrMsgs := [] }

/-- Counterexample for C9: an invocation passing the describe selector with an
empty string, against a healthy environment whose server has no tools.  The
tool "" does not exist, yet main treats the empty string as falsy, prints the
help and exits 0 - not 1 as the claim requires for a describe of a
nonexistent tool. -/
theorem C9_empty_describe :
    mainRun (⟨true, true, true, [], none, none, none⟩ : MainEnv Unit)
        ⟨false, some "", none⟩ = ⟨0, []⟩ ∧
    describeToolResult ([] : List (Tool Unit)) "" = none ∧
    optTruthy (some "") = false := by
  refine ⟨rfl, rfl, rfl⟩

/-- The exit-1 condition of main as amended: the configuration file is missing
or unparsable, the mcp package is unavailable, or the selected operation (the
first truthy selector in the order list, describe, call) fails - by raising,
or, for describe, by naming a tool absent from the listing. -/
def C9FailCond {σ : Type} (env : MainEnv σ) (args : CliArgs) : Prop :=
  env.configExists = false ∨
  env.configParses = false ∨
  env.hasMcp = false ∨
  (args.list = true ∧ env.listErr ≠ none) ∨
  (args.list = false ∧ optTruthy args.describe = true ∧
    (env.describeErr ≠ none ∨
     (env.describeErr = none ∧
      describeToolResult env.tools (args.describe.getD "") = none))) ∨
  (args.list = false ∧ optTruthy args.describe = false ∧ optTruthy args.call = true ∧
    env.callErr ≠ none)

/-- Claim C9 as amended: every run exits with code 0 or 1; code 1 comes with at
least one message on the diagnostic stream; and the exit code is 1 exactly
when the configuration file is missing or unparsable, the mcp package is
unavailable, a truthy (non-empty) describe selector names a tool absent from
the listing, or the selected operation raises.  A selector given an empty
string is falsy, counts as not chosen, and leads to the help path with exit
code 0. -/
theorem C9_amended {σ : Type} (env : MainEnv σ) (args : CliArgs) :
    ((mainRun env args).exitCode = 0 ∨ (mainRun env args).exitCode = 1) ∧
    ((mainRun env args).exitCode = 1 → (mainRun env args).stderrMsgs ≠ []) ∧
    ((mainRun env args).exitCode = 1 ↔ C9FailCond env args) := by
  rcases env with ⟨ce, cp, hm, tools, le, de, cle⟩
  rcases args with ⟨al, ad, ac⟩
  cases ce
  · simp [mainRun, C9FailCond]
  cases cp
  · simp [mainRun, C9FailCond]
  cases hm
  · simp [mainRun, C9FailCond]
  cases al
  case false =>
    by_cases hd : optTruthy ad = true
    · cases de
      · cases hscan : describeToolResult tools (ad.getD "") <;>
          simp [mainRun, C9FailCond, hd, hscan]
      · simp [mainRun, C9FailCond, hd]
    · by_cases hc : optTruthy ac = true
      · cases cle <;> simp [mainRun, C9FailCond, hd, hc]
      · simp [mainRun, C9FailCond, hd, hc]
  case true =>
    cases le <;> simp [mainRun, C9FailCond]

/-- Witness for the amended C9: with the configuration file missing, main
exits 1 and the diagnostic stream is not empty. -/
theorem C9_amended_witness :
    (mainRun (⟨false, true, true, [], none, none, none⟩ : MainEnv Unit)
        ⟨true, none, none⟩).exitCode = 1 ∧
    (mainRun (⟨false, true, true, [], none, none, none⟩ : MainEnv Unit)
        ⟨true, none, none⟩).stderrMsgs ≠ [] :=
  ⟨rfl,
   (C9_amended (⟨false, true, true, [], none, none, none⟩ : MainEnv Unit)
      ⟨true, none, none⟩).2.1 rfl⟩
